import Mathlib

/-!
Verification of the Collaborative-Editor server's differential-synchronization
core (server/socket/socketHandler.js and the embedded Document model) against
its natural-language specification.

The socket handlers are modelled as pure functions from a server state to a
new server state plus the list of messages emitted, in emission order.  The
diff-match-patch library is external to the repository; its `patch_apply`
entry point is abstracted as a parameter of type `PatchApply`, mirroring the
signature used by the source's `applyPatch` wrapper.  Fallible persistence
(`document.save()`) is modelled by `Option String` parameters: `none` means
the save succeeds, `some msg` means it throws an error with message `msg`,
which the handler's surrounding try/catch turns into an `error` emission to
the sender.
-/

namespace CollabEditor

/-- Opaque token standing for a diff-match-patch patch bundle; the handlers
never inspect it, they only hand it to `patch_apply` and forward it. -/
abbrev PatchBundle := Nat

/-- Abstraction of `dmp.patch_apply(patches, text)`: returns the patched text
and the per-hunk boolean result array. -/
abbrev PatchApply := PatchBundle → String → String × List Bool

/-- versionSchema: `{ content, timestamp, author, changeDescription }`. -/
structure Version where
  content : String
  timestamp : Nat
  author : String
  changeDescription : String
deriving DecidableEq, Repr

/-- documentSchema (the fields the socket handlers touch). -/
structure Document where
  title : String
  content : String
  owner : String
  collaborators : List String
  versions : List Version
  currentVersion : Nat
  lastModified : Nat
deriving DecidableEq, Repr

/-- An entry of the in-memory `offlineEdits` buffer:
`{ patches, timestamp, userId, username }`. -/
structure OfflineEdit where
  patches : PatchBundle
  timestamp : Nat
  userId : String
  username : String
deriving DecidableEq, Repr

/-- `socket.user` as set by the authentication middleware. -/
structure UserInfo where
  id : String
  username : String
deriving DecidableEq, Repr

/-- Lookup in an association list, mirroring `Map.get` / `findById`. -/
def getKey {α : Type} : List (String × α) → String → Option α
  | [], _ => none
  | (k, v) :: rest, key => if k = key then some v else getKey rest key

/-- `Map.set`: replace the binding if the key is present, else append. -/
def setKey {α : Type} : List (String × α) → String → α → List (String × α)
  | [], key, value => [(key, value)]
  | (k, v) :: rest, key, value =>
      if k = key then (key, value) :: rest else (k, v) :: setKey rest key value

/-- `Map.delete`. -/
def delKey {α : Type} : List (String × α) → String → List (String × α)
  | [], _ => []
  | (k, v) :: rest, key => if k = key then rest else (k, v) :: delKey rest key

/-- The server's mutable state observed by the socket handlers: the document
store (standing for the MongoDB collection), the in-memory
`documentShadows` map, and the in-memory `offlineEdits` map keyed by the
string `userId ++ "-" ++ documentId`. -/
structure ServerState where
  documents : List (String × Document)
  documentShadows : List (String × String)
  offlineEdits : List (String × List OfflineEdit)
deriving DecidableEq, Repr

/-- A message emitted by a handler, tagged with its audience: to the sender
only, to the room excluding the sender (`socket.to(room).emit`), or to the
entire room (`io.to(room).emit`). -/
inductive OutMsg where
  /-- `socket.emit('error', { message })` — sender only. -/
  | errorToSender (message : String)
  /-- `socket.emit('sync-required', { content, serverShadowVersion })` — sender only. -/
  | syncRequired (content : String) (serverShadowVersion : Nat)
  /-- `socket.to(room).emit('document-change', { patches, userId, username })` — peers only. -/
  | documentChangeToPeers (room : String) (patches : PatchBundle) (userId : String) (username : String)
  /-- `io.to(room).emit('version-created', { versionIndex, userId, username, timestamp })` — entire room. -/
  | versionCreatedToRoom (room : String) (versionIndex : Nat) (userId : String) (username : String) (timestamp : Nat)
  /-- `io.to(room).emit('document-updated', { content, userId, username })` — entire room. -/
  | documentUpdatedToRoom (room : String) (content : String) (userId : String) (username : String)
  /-- `socket.emit('offline-edit-saved', { success })` — sender only. -/
  | offlineEditSavedToSender (success : Bool)
  /-- `socket.emit('offline-edits-synced', { success, count })` — sender only. -/
  | offlineEditsSyncedToSender (success : Bool) (count : Nat)
deriving DecidableEq, Repr

/-- Discriminator for the sender-directed `error` emission. -/
def OutMsg.isError : OutMsg → Bool
  | .errorToSender _ => true
  | _ => false

/-- `applyPatch(text, patches)`: run `patch_apply` and conjoin the per-hunk
results (`results.every(result => result)`). -/
def applyPatch (patch_apply : PatchApply) (text : String) (patches : PatchBundle) :
    String × Bool :=
  let r := patch_apply patches text
  (r.1, r.2.all (fun result => result))

/-- `getDocumentShadow(documentId)`: return the cached shadow, or hydrate it
from the document's content; throws `'Document not found'` if the document
does not exist. -/
def getDocumentShadow (st : ServerState) (documentId : String) :
    Except String (ServerState × String) :=
  match getKey st.documentShadows documentId with
  | some shadow => .ok (st, shadow)
  | none =>
      match getKey st.documents documentId with
      | none => .error "Document not found"
      | some document =>
          .ok ({ st with documentShadows := setKey st.documentShadows documentId document.content },
               document.content)

/-- `documentSchema.methods.addVersion(content, author, changeDescription)`:
push a new version, set `currentVersion` to the new last index, and update
`content` and `lastModified`. -/
def addVersion (d : Document) (content : String) (author : String)
    (changeDescription : String) (now : Nat) : Document :=
  let versions2 := d.versions ++
    [{ content := content, timestamp := now, author := author,
       changeDescription := changeDescription }]
  { d with versions := versions2, currentVersion := versions2.length - 1,
           content := content, lastModified := now }

/-- `documentSchema.methods.revertToVersion(versionIndex, userId)`: when the
index is in range, append a new version carrying the target version's content
with description `Reverted to version ${versionIndex + 1}`; otherwise throw
`'Invalid version index'`. -/
def revertToVersion (d : Document) (versionIndex : Int) (userId : String)
    (now : Nat) : Except String Document :=
  if h : 0 ≤ versionIndex ∧ versionIndex < (d.versions.length : Int) then
    let versionContent := (d.versions.get ⟨versionIndex.toNat, by omega⟩).content
    .ok (addVersion d versionContent userId
          ("Reverted to version " ++ toString (versionIndex + 1)) now)
  else
    .error "Invalid version index"

/-- The snapshot cadence of the `document-change` handler:
`document.versions.length === 0 || Date.now() - last.timestamp > 60000`. -/
def snapshotDue (versions : List Version) (now : Nat) : Bool :=
  versions.isEmpty ||
    (match versions.getLast? with
     | some v => decide (60000 < now - v.timestamp)
     | none => false)

/-- The `document-change` handler.  `saveHead` models the outcome of the
`document.save()` persisting the head text; `saveVersion` models the save
performed inside `addVersion`.  Returns the new server state and the emitted
messages in order. -/
def handleDocumentChange (patch_apply : PatchApply) (saveHead saveVersion : Option String)
    (now : Nat) (user : UserInfo) (st : ServerState)
    (documentId : String) (patches : PatchBundle) : ServerState × List OutMsg :=
  match getKey st.documents documentId with
  | none => (st, [.errorToSender "Document not found"])
  | some document =>
      match getDocumentShadow st documentId with
      | .error msg => (st, [.errorToSender msg])
      | .ok (st1, serverShadow) =>
          let applied := applyPatch patch_apply serverShadow patches
          if applied.2 = false then
            (st1, [.syncRequired document.content document.currentVersion])
          else
            let newServerShadow := applied.1
            let st2 := { st1 with
              documentShadows := setKey st1.documentShadows documentId newServerShadow }
            match saveHead with
            | some msg => (st2, [.errorToSender msg])
            | none =>
                let dHead := { document with content := newServerShadow, lastModified := now }
                let st3 := { st2 with documents := setKey st2.documents documentId dHead }
                let changeMsg := OutMsg.documentChangeToPeers documentId patches user.id user.username
                if snapshotDue dHead.versions now then
                  let d2 := addVersion dHead newServerShadow user.id "Auto-saved version" now
                  match saveVersion with
                  | some msg => (st3, [changeMsg, .errorToSender msg])
                  | none =>
                      ({ st3 with documents := setKey st3.documents documentId d2 },
                       [changeMsg,
                        .versionCreatedToRoom documentId d2.currentVersion user.id user.username now])
                else
                  (st3, [changeMsg])

/-- The `save-offline-edit` handler: append the bundle to the FIFO keyed
`${socket.user.id}-${documentId}` and acknowledge. -/
def handleSaveOfflineEdit (user : UserInfo) (st : ServerState)
    (documentId : String) (patches : PatchBundle) (timestamp : Nat) :
    ServerState × List OutMsg :=
  let key := user.id ++ "-" ++ documentId
  let existing := (getKey st.offlineEdits key).getD []
  let entry : OfflineEdit :=
    { patches := patches, timestamp := timestamp,
      userId := user.id, username := user.username }
  ({ st with offlineEdits := setKey st.offlineEdits key (existing ++ [entry]) },
   [.offlineEditSavedToSender true])

/-- One iteration of the replay loop of `sync-offline-edits`: on success the
shadow advances and the count increments; on failure the accumulator is
untouched. -/
def replayStep (patch_apply : PatchApply) (acc : String × Nat) (edit : OfflineEdit) :
    String × Nat :=
  let applied := applyPatch patch_apply acc.1 edit.patches
  if applied.2 then (applied.1, acc.2 + 1) else acc

/-- The comparator of `userOfflineEdits.sort((a, b) => a.timestamp - b.timestamp)`. -/
def byTimestamp (a b : OfflineEdit) : Bool :=
  Nat.ble a.timestamp b.timestamp

/-- The `sync-offline-edits` handler. -/
def handleSyncOfflineEdits (patch_apply : PatchApply) (saveHead saveVersion : Option String)
    (now : Nat) (user : UserInfo) (st : ServerState) (documentId : String) :
    ServerState × List OutMsg :=
  let key := user.id ++ "-" ++ documentId
  let userOfflineEdits := (getKey st.offlineEdits key).getD []
  if userOfflineEdits.length = 0 then
    (st, [.offlineEditsSyncedToSender true 0])
  else
    match getKey st.documents documentId with
    | none => (st, [.errorToSender "Document not found"])
    | some document =>
        match getDocumentShadow st documentId with
        | .error msg => (st, [.errorToSender msg])
        | .ok (st1, serverShadow) =>
            let sorted := userOfflineEdits.mergeSort byTimestamp
            let replayed := sorted.foldl (replayStep patch_apply) (serverShadow, 0)
            let finalShadow := replayed.1
            let appliedCount := replayed.2
            if 0 < appliedCount then
              let st2 := { st1 with
                documentShadows := setKey st1.documentShadows documentId finalShadow }
              match saveHead with
              | some msg => (st2, [.errorToSender msg])
              | none =>
                  let dHead := { document with content := finalShadow, lastModified := now }
                  let st3 := { st2 with documents := setKey st2.documents documentId dHead }
                  let d2 := addVersion dHead finalShadow user.id
                    ("Synced " ++ toString appliedCount ++ " offline edits") now
                  match saveVersion with
                  | some msg => (st3, [.errorToSender msg])
                  | none =>
                      ({ st3 with documents := setKey st3.documents documentId d2,
                                  offlineEdits := delKey st3.offlineEdits key },
                       [.documentUpdatedToRoom documentId finalShadow user.id user.username,
                        .versionCreatedToRoom documentId d2.currentVersion user.id user.username now,
                        .offlineEditsSyncedToSender true appliedCount])
            else
              ({ st1 with offlineEdits := delKey st1.offlineEdits key },
               [.offlineEditsSyncedToSender true appliedCount])

/-- Modelled from the spec: the HTTP revert route
(`POST /api/documents/:id/revert/:versionIndex`) is not among the sources;
per spec §4.H it looks the document up, calls `revertToVersion` under the
document mutex, and then refreshes the in-memory shadow to the reverted
content. -/
def revertRoute (st : ServerState) (documentId : String) (versionIndex : Int)
    (userId : String) (now : Nat) : Except String ServerState :=
  match getKey st.documents documentId with
  | none => .error "Document not found"
  | some document =>
      match revertToVersion document versionIndex userId now with
      | .error msg => .error msg
      | .ok d2 =>
          .ok { st with documents := setKey st.documents documentId d2,
                        documentShadows := setKey st.documentShadows documentId d2.content }

/-- Helper: a cached shadow is returned unchanged. -/
theorem getDocumentShadow_of_present (st : ServerState) (documentId shadow : String)
    (h : getKey st.documentShadows documentId = some shadow) :
    getDocumentShadow st documentId = .ok (st, shadow) := by
  simp [getDocumentShadow, h]

/-- Helper: looking up a key just set returns the new value. -/
theorem getKey_setKey_self {α : Type} (l : List (String × α)) (k : String) (v : α) :
    getKey (setKey l k v) k = some v := by
  induction l with
  | nil => simp [setKey, getKey]
  | cons hd tl ih =>
      obtain ⟨k1, v1⟩ := hd
      by_cases h : k1 = k
      · simp [setKey, getKey, h]
      · simp [setKey, getKey, h, ih]

/-- Claim C6: after every addVersion, `currentVersion = len(versions) - 1`,
the versions sequence is the previous one with exactly one entry appended,
and `content` equals the appended version's content. -/
theorem C6_addVersion_postcondition (d : Document) (content author changeDescription : String)
    (now : Nat) :
    (addVersion d content author changeDescription now).versions
      = d.versions ++ [{ content := content, timestamp := now, author := author,
                         changeDescription := changeDescription }]
    ∧ (addVersion d content author changeDescription now).currentVersion
      = (addVersion d content author changeDescription now).versions.length - 1
    ∧ (addVersion d content author changeDescription now).content = content := by
  refine ⟨rfl, ?_, rfl⟩
  simp [addVersion]

/-- Claim C9: `save-offline-edit` appends the bundle to the FIFO keyed
(userId, documentId) and acknowledges with `{success: true}`, regardless of
whether the document exists or the sender has access; no document state is
read or mutated. -/
theorem C9_save_offline_edit (user : UserInfo) (st : ServerState)
    (documentId : String) (patches : PatchBundle) (timestamp : Nat) :
    (handleSaveOfflineEdit user st documentId patches timestamp).1.documents = st.documents
    ∧ (handleSaveOfflineEdit user st documentId patches timestamp).1.documentShadows
        = st.documentShadows
    ∧ (handleSaveOfflineEdit user st documentId patches timestamp).1.offlineEdits
        = setKey st.offlineEdits (user.id ++ "-" ++ documentId)
            (((getKey st.offlineEdits (user.id ++ "-" ++ documentId)).getD [])
              ++ [{ patches := patches, timestamp := timestamp,
                    userId := user.id, username := user.username }])
    ∧ (handleSaveOfflineEdit user st documentId patches timestamp).2
        = [OutMsg.offlineEditSavedToSender true]
    ∧ (∀ documents2 : List (String × Document), ∀ documentShadows2 : List (String × String),
        (handleSaveOfflineEdit user
            { documents := documents2, documentShadows := documentShadows2,
              offlineEdits := st.offlineEdits } documentId patches timestamp).1.offlineEdits
          = (handleSaveOfflineEdit user st documentId patches timestamp).1.offlineEdits
        ∧ (handleSaveOfflineEdit user
            { documents := documents2, documentShadows := documentShadows2,
              offlineEdits := st.offlineEdits } documentId patches timestamp).2
          = (handleSaveOfflineEdit user st documentId patches timestamp).2) := by
  refine ⟨?_, ?_, ?_, ?_, fun documents2 documentShadows2 => ⟨?_, ?_⟩⟩ <;>
    simp [handleSaveOfflineEdit]

/-- Claim C10: a `sync-offline-edits` request whose buffer is empty or absent
replies `{success: true, count: 0}` and leaves the whole server state —
documents, shadows, offline buffers — unchanged; in particular no document
lookup happens, so no error is emitted even when the document is missing. -/
theorem C10_sync_empty_buffer (patch_apply : PatchApply) (saveHead saveVersion : Option String)
    (now : Nat) (user : UserInfo) (st : ServerState) (documentId : String)
    (hbuf : (getKey st.offlineEdits (user.id ++ "-" ++ documentId)).getD [] = []) :
    handleSyncOfflineEdits patch_apply saveHead saveVersion now user st documentId
      = (st, [OutMsg.offlineEditsSyncedToSender true 0]) := by
  unfold handleSyncOfflineEdits
  simp [hbuf]

/-- Witness for C10: a concrete state whose document store does not even
contain the requested document, and whose offline buffer is absent. -/
theorem C10_sync_empty_buffer_witness :
    handleSyncOfflineEdits (fun _ t => (t, [true])) none none 0
      { id := "u", username := "U" }
      { documents := [], documentShadows := [], offlineEdits := [] } "d"
      = ({ documents := [], documentShadows := [], offlineEdits := [] },
         [OutMsg.offlineEditsSyncedToSender true 0]) :=
  C10_sync_empty_buffer (fun _ t => (t, [true])) none none 0
    { id := "u", username := "U" }
    { documents := [], documentShadows := [], offlineEdits := [] } "d" (by decide)

/-- Claim C1: when the patch bundle fails against the server shadow, the
handler emits `sync-required` with the full current document content to the
sender only, and nothing else: the state — shadow, content, versions — is
returned unchanged and no message of any kind reaches peers. -/
theorem C1_failed_patch_sync_required (patch_apply : PatchApply)
    (saveHead saveVersion : Option String) (now : Nat) (user : UserInfo)
    (st : ServerState) (documentId : String) (patches : PatchBundle)
    (document : Document) (shadow : String)
    (hdoc : getKey st.documents documentId = some document)
    (hshadow : getKey st.documentShadows documentId = some shadow)
    (hfail : (applyPatch patch_apply shadow patches).2 = false) :
    handleDocumentChange patch_apply saveHead saveVersion now user st documentId patches
      = (st, [OutMsg.syncRequired document.content document.currentVersion]) := by
  unfold handleDocumentChange
  rw [hdoc, getDocumentShadow_of_present st documentId shadow hshadow]
  simp [hfail]

/-- Witness for C1: a stale patch that fails to apply against the shadow
`"one two three"`; the handler answers with the full content and touches
nothing. -/
theorem C1_failed_patch_sync_required_witness :
    handleDocumentChange (fun _ t => (t, [false])) none none 5
      { id := "a", username := "A" }
      { documents := [("d", { title := "T", content := "one two three",
                              owner := "a", collaborators := [],
                              versions := [], currentVersion := 0, lastModified := 0 })],
        documentShadows := [("d", "one two three")], offlineEdits := [] } "d" 0
      = ({ documents := [("d", { title := "T", content := "one two three",
                                 owner := "a", collaborators := [],
                                 versions := [], currentVersion := 0, lastModified := 0 })],
           documentShadows := [("d", "one two three")], offlineEdits := [] },
         [OutMsg.syncRequired "one two three" 0]) :=
  C1_failed_patch_sync_required (fun _ t => (t, [false])) none none 5
    { id := "a", username := "A" }
    { documents := [("d", { title := "T", content := "one two three",
                            owner := "a", collaborators := [],
                            versions := [], currentVersion := 0, lastModified := 0 })],
      documentShadows := [("d", "one two three")], offlineEdits := [] } "d" 0
    { title := "T", content := "one two three", owner := "a", collaborators := [],
      versions := [], currentVersion := 0, lastModified := 0 }
    "one two three" (by decide) (by decide) (by decide)

/-- Claim C2 counterexample: a sender who is neither the owner nor a
collaborator still gets their patch applied and broadcast by the
`document-change` handler — the handler performs no authorization check —
contradicting the claim that in this case an error is emitted and state is
unchanged. -/
theorem C2_counterexample :
    ("mallory" ≠ "alice" ∧ "mallory" ∉ (["bob"] : List String))
    ∧ (getKey (handleDocumentChange (fun _ t => (t ++ "X", [true])) none none 0
          { id := "mallory", username := "M" }
          { documents := [("d", { title := "T", content := "base", owner := "alice",
                                  collaborators := ["bob"], versions := [],
                                  currentVersion := 0, lastModified := 0 })],
            documentShadows := [("d", "base")], offlineEdits := [] }
          "d" 0).1.documents "d").map Document.content = some "baseX"
    ∧ (handleDocumentChange (fun _ t => (t ++ "X", [true])) none none 0
          { id := "mallory", username := "M" }
          { documents := [("d", { title := "T", content := "base", owner := "alice",
                                  collaborators := ["bob"], versions := [],
                                  currentVersion := 0, lastModified := 0 })],
            documentShadows := [("d", "base")], offlineEdits := [] }
          "d" 0).2
        = [OutMsg.documentChangeToPeers "d" 0 "mallory" "M",
           OutMsg.versionCreatedToRoom "d" 0 "mallory" "M" 0] := by
  decide

/-- Claim C2 (amended): the `document-change` handler performs no
owner/collaborator authorization: whenever the document exists and the patch
bundle applies to the shadow, the patch is applied (content and shadow take
the patched value) and broadcast to peers, even when the sender is neither
the owner nor a collaborator, and no error is emitted. -/
theorem C2_amended_no_authorization (patch_apply : PatchApply) (now : Nat)
    (user : UserInfo) (st : ServerState) (documentId : String) (patches : PatchBundle)
    (document : Document) (shadow : String)
    (hdoc : getKey st.documents documentId = some document)
    (hshadow : getKey st.documentShadows documentId = some shadow)
    (hok : (applyPatch patch_apply shadow patches).2 = true)
    (hunauth : user.id ≠ document.owner ∧ user.id ∉ document.collaborators) :
    (getKey (handleDocumentChange patch_apply none none now user st documentId patches).1.documents
        documentId).map Document.content = some (applyPatch patch_apply shadow patches).1
    ∧ getKey (handleDocumentChange patch_apply none none now user st documentId patches).1.documentShadows
        documentId = some (applyPatch patch_apply shadow patches).1
    ∧ OutMsg.documentChangeToPeers documentId patches user.id user.username
        ∈ (handleDocumentChange patch_apply none none now user st documentId patches).2
    ∧ (handleDocumentChange patch_apply none none now user st documentId patches).2.all
        (fun m => ! m.isError) = true := by
  unfold handleDocumentChange
  rw [hdoc, getDocumentShadow_of_present st documentId shadow hshadow]
  simp only [hok]
  by_cases hsnap : snapshotDue document.versions now
  · simp [hsnap, getKey_setKey_self, addVersion, OutMsg.isError]
  · simp [hsnap, getKey_setKey_self, OutMsg.isError]

/-- Witness for the amended C2: the concrete unauthorized sender from the
counterexample state satisfies all hypotheses and the conclusion. -/
theorem C2_amended_no_authorization_witness :
    (getKey (handleDocumentChange (fun _ t => (t ++ "X", [true])) none none 0
        { id := "mallory", username := "M" }
        { documents := [("d", { title := "T", content := "base", owner := "alice",
                                collaborators := ["bob"], versions := [],
                                currentVersion := 0, lastModified := 0 })],
          documentShadows := [("d", "base")], offlineEdits := [] }
        "d" 0).1.documents "d").map Document.content
      = some (applyPatch (fun _ t => (t ++ "X", [true])) "base" 0).1
    ∧ getKey (handleDocumentChange (fun _ t => (t ++ "X", [true])) none none 0
        { id := "mallory", username := "M" }
        { documents := [("d", { title := "T", content := "base", owner := "alice",
                                collaborators := ["bob"], versions := [],
                                currentVersion := 0, lastModified := 0 })],
          documentShadows := [("d", "base")], offlineEdits := [] }
        "d" 0).1.documentShadows "d"
      = some (applyPatch (fun _ t => (t ++ "X", [true])) "base" 0).1
    ∧ OutMsg.documentChangeToPeers "d" 0 "mallory" "M"
        ∈ (handleDocumentChange (fun _ t => (t ++ "X", [true])) none none 0
            { id := "mallory", username := "M" }
            { documents := [("d", { title := "T", content := "base", owner := "alice",
                                    collaborators := ["bob"], versions := [],
                                    currentVersion := 0, lastModified := 0 })],
              documentShadows := [("d", "base")], offlineEdits := [] }
            "d" 0).2
    ∧ (handleDocumentChange (fun _ t => (t ++ "X", [true])) none none 0
        { id := "mallory", username := "M" }
        { documents := [("d", { title := "T", content := "base", owner := "alice",
                                collaborators := ["bob"], versions := [],
                                currentVersion := 0, lastModified := 0 })],
          documentShadows := [("d", "base")], offlineEdits := [] }
        "d" 0).2.all (fun m => ! m.isError) = true :=
  C2_amended_no_authorization (fun _ t => (t ++ "X", [true])) 0
    { id := "mallory", username := "M" }
    { documents := [("d", { title := "T", content := "base", owner := "alice",
                            collaborators := ["bob"], versions := [],
                            currentVersion := 0, lastModified := 0 })],
      documentShadows := [("d", "base")], offlineEdits := [] }
    "d" 0
    { title := "T", content := "base", owner := "alice", collaborators := ["bob"],
      versions := [], currentVersion := 0, lastModified := 0 }
    "base" (by decide) (by decide) (by decide) (by decide)

/-- Helper: the code's snapshot condition in terms of the last version. -/
theorem snapshotDue_iff (vs : List Version) (now : Nat) :
    snapshotDue vs now = true
      ↔ (vs = [] ∨ ∃ v, vs.getLast? = some v ∧ 60000 < now - v.timestamp) := by
  unfold snapshotDue
  cases hl : vs.getLast? with
  | none =>
      have hnil : vs = [] := by
        cases vs with
        | nil => rfl
        | cons a l => simp at hl
      subst hnil
      simp
  | some v =>
      have hne : vs ≠ [] := by
        intro h
        subst h
        simp at hl
      simp [List.isEmpty_iff, hne, hl]

/-- Claim C3 counterexample: with the last version exactly 60000 ms old the
claimed condition "now − last.timestamp ≥ 60 s" holds, yet the handler
appends no version and broadcasts no `version-created` — the code requires
strictly more than 60000 ms. -/
theorem C3_counterexample :
    60000 - 0 ≥ 60000
    ∧ (getKey (handleDocumentChange (fun _ t => (t ++ "X", [true])) none none 60000
          { id := "a", username := "A" }
          { documents := [("d", { title := "T", content := "v0", owner := "a",
                                  collaborators := [],
                                  versions := [{ content := "v0", timestamp := 0,
                                                 author := "a", changeDescription := "x" }],
                                  currentVersion := 0, lastModified := 0 })],
            documentShadows := [("d", "v0")], offlineEdits := [] }
          "d" 0).1.documents "d").map Document.versions
        = some [{ content := "v0", timestamp := 0, author := "a", changeDescription := "x" }]
    ∧ (handleDocumentChange (fun _ t => (t ++ "X", [true])) none none 60000
          { id := "a", username := "A" }
          { documents := [("d", { title := "T", content := "v0", owner := "a",
                                  collaborators := [],
                                  versions := [{ content := "v0", timestamp := 0,
                                                 author := "a", changeDescription := "x" }],
                                  currentVersion := 0, lastModified := 0 })],
            documentShadows := [("d", "v0")], offlineEdits := [] }
          "d" 0).2
        = [OutMsg.documentChangeToPeers "d" 0 "a" "A"] := by
  decide

/-- Claim C3 (amended): in a successful document-change apply, a new version
is appended if and only if versions is empty or now minus the last version's
timestamp is strictly greater than 60000 ms; the appended version carries the
new shadow as content, the sender as author and description
"Auto-saved version", and `version-created` is broadcast to the entire room. -/
theorem C3_amended_snapshot_policy (patch_apply : PatchApply) (now : Nat)
    (user : UserInfo) (st : ServerState) (documentId : String) (patches : PatchBundle)
    (document : Document) (shadow : String)
    (hdoc : getKey st.documents documentId = some document)
    (hshadow : getKey st.documentShadows documentId = some shadow)
    (hok : (applyPatch patch_apply shadow patches).2 = true) :
    (snapshotDue document.versions now = true
       ↔ (document.versions = []
          ∨ ∃ v, document.versions.getLast? = some v ∧ 60000 < now - v.timestamp))
    ∧ (snapshotDue document.versions now = true →
        (getKey (handleDocumentChange patch_apply none none now user st documentId
            patches).1.documents documentId).map Document.versions
          = some (document.versions
              ++ [{ content := (applyPatch patch_apply shadow patches).1, timestamp := now,
                    author := user.id, changeDescription := "Auto-saved version" }])
        ∧ (handleDocumentChange patch_apply none none now user st documentId patches).2
          = [OutMsg.documentChangeToPeers documentId patches user.id user.username,
             OutMsg.versionCreatedToRoom documentId document.versions.length
               user.id user.username now])
    ∧ (snapshotDue document.versions now = false →
        (getKey (handleDocumentChange patch_apply none none now user st documentId
            patches).1.documents documentId).map Document.versions
          = some document.versions
        ∧ (handleDocumentChange patch_apply none none now user st documentId patches).2
          = [OutMsg.documentChangeToPeers documentId patches user.id user.username]) := by
  refine ⟨snapshotDue_iff document.versions now, ?_, ?_⟩ <;>
    intro hsnap <;>
    · unfold handleDocumentChange
      rw [hdoc, getDocumentShadow_of_present st documentId shadow hshadow]
      simp [hok, hsnap, getKey_setKey_self, addVersion]

/-- Witness for the amended C3: an empty version list forces a snapshot; the
appended version and the two emissions are exactly as stated. -/
theorem C3_amended_snapshot_policy_witness :
    (snapshotDue ([] : List Version) 7 = true
       ↔ (([] : List Version) = []
          ∨ ∃ v, ([] : List Version).getLast? = some v ∧ 60000 < 7 - v.timestamp))
    ∧ (snapshotDue ([] : List Version) 7 = true →
        (getKey (handleDocumentChange (fun _ t => (t ++ "X", [true])) none none 7
            { id := "a", username := "A" }
            { documents := [("d", { title := "T", content := "base", owner := "a",
                                    collaborators := [], versions := [],
                                    currentVersion := 0, lastModified := 0 })],
              documentShadows := [("d", "base")], offlineEdits := [] }
            "d" 0).1.documents "d").map Document.versions
          = some (([] : List Version)
              ++ [{ content := (applyPatch (fun _ t => (t ++ "X", [true])) "base" 0).1,
                    timestamp := 7, author := "a",
                    changeDescription := "Auto-saved version" }])
        ∧ (handleDocumentChange (fun _ t => (t ++ "X", [true])) none none 7
            { id := "a", username := "A" }
            { documents := [("d", { title := "T", content := "base", owner := "a",
                                    collaborators := [], versions := [],
                                    currentVersion := 0, lastModified := 0 })],
              documentShadows := [("d", "base")], offlineEdits := [] }
            "d" 0).2
          = [OutMsg.documentChangeToPeers "d" 0 "a" "A",
             OutMsg.versionCreatedToRoom "d" ([] : List Version).length "a" "A" 7])
    ∧ (snapshotDue ([] : List Version) 7 = false →
        (getKey (handleDocumentChange (fun _ t => (t ++ "X", [true])) none none 7
            { id := "a", username := "A" }
            { documents := [("d", { title := "T", content := "base", owner := "a",
                                    collaborators := [], versions := [],
                                    currentVersion := 0, lastModified := 0 })],
              documentShadows := [("d", "base")], offlineEdits := [] }
            "d" 0).1.documents "d").map Document.versions
          = some ([] : List Version)
        ∧ (handleDocumentChange (fun _ t => (t ++ "X", [true])) none none 7
            { id := "a", username := "A" }
            { documents := [("d", { title := "T", content := "base", owner := "a",
                                    collaborators := [], versions := [],
                                    currentVersion := 0, lastModified := 0 })],
              documentShadows := [("d", "base")], offlineEdits := [] }
            "d" 0).2
          = [OutMsg.documentChangeToPeers "d" 0 "a" "A"]) :=
  C3_amended_snapshot_policy (fun _ t => (t ++ "X", [true])) 7
    { id := "a", username := "A" }
    { documents := [("d", { title := "T", content := "base", owner := "a",
                            collaborators := [], versions := [],
                            currentVersion := 0, lastModified := 0 })],
      documentShadows := [("d", "base")], offlineEdits := [] }
    "d" 0
    { title := "T", content := "base", owner := "a", collaborators := [],
      versions := [], currentVersion := 0, lastModified := 0 }
    "base" (by decide) (by decide) (by decide)

/-- Claim C4 counterexample: when persisting the head fails after a
successful patch, the in-memory shadow keeps the post-apply value "baseX"
instead of being rolled back to the pre-apply "base" as the claim states. -/
theorem C4_counterexample :
    getKey (handleDocumentChange (fun _ t => (t ++ "X", [true])) (some "db down") none 0
        { id := "a", username := "A" }
        { documents := [("d", { title := "T", content := "base", owner := "a",
                                collaborators := [], versions := [],
                                currentVersion := 0, lastModified := 0 })],
          documentShadows := [("d", "base")], offlineEdits := [] }
        "d" 0).1.documentShadows "d" = some "baseX"
    ∧ (handleDocumentChange (fun _ t => (t ++ "X", [true])) (some "db down") none 0
        { id := "a", username := "A" }
        { documents := [("d", { title := "T", content := "base", owner := "a",
                                collaborators := [], versions := [],
                                currentVersion := 0, lastModified := 0 })],
          documentShadows := [("d", "base")], offlineEdits := [] }
        "d" 0).2 = [OutMsg.errorToSender "db down"]
    ∧ "baseX" ≠ "base" := by
  decide

/-- Claim C4 (amended): if persisting the document head fails during a
document-change whose patch applied, an error is emitted to the sender only
and the patch is not broadcast, but the in-memory shadow keeps the
post-apply value — it is not rolled back; the document store is unchanged. -/
theorem C4_amended_persist_failure (patch_apply : PatchApply) (msg : String)
    (saveVersion : Option String) (now : Nat) (user : UserInfo) (st : ServerState)
    (documentId : String) (patches : PatchBundle) (document : Document) (shadow : String)
    (hdoc : getKey st.documents documentId = some document)
    (hshadow : getKey st.documentShadows documentId = some shadow)
    (hok : (applyPatch patch_apply shadow patches).2 = true) :
    handleDocumentChange patch_apply (some msg) saveVersion now user st documentId patches
      = ({ st with documentShadows :=
                     setKey st.documentShadows documentId
                       (applyPatch patch_apply shadow patches).1 },
         [OutMsg.errorToSender msg]) := by
  unfold handleDocumentChange
  rw [hdoc, getDocumentShadow_of_present st documentId shadow hshadow]
  simp [hok]

/-- Witness for the amended C4: the concrete failed-save run from the
counterexample. -/
theorem C4_amended_persist_failure_witness :
    handleDocumentChange (fun _ t => (t ++ "X", [true])) (some "db down") none 0
        { id := "a", username := "A" }
        { documents := [("d", { title := "T", content := "base", owner := "a",
                                collaborators := [], versions := [],
                                currentVersion := 0, lastModified := 0 })],
          documentShadows := [("d", "base")], offlineEdits := [] }
        "d" 0
      = ({ ({ documents := [("d", { title := "T", content := "base", owner := "a",
                                    collaborators := [], versions := [],
                                    currentVersion := 0, lastModified := 0 })],
              documentShadows := [("d", "base")], offlineEdits := [] } : ServerState) with
           documentShadows :=
                     setKey [("d", "base")] "d"
                       (applyPatch (fun _ t => (t ++ "X", [true])) "base" 0).1 },
         [OutMsg.errorToSender "db down"]) :=
  C4_amended_persist_failure (fun _ t => (t ++ "X", [true])) "db down" none 0
    { id := "a", username := "A" }
    { documents := [("d", { title := "T", content := "base", owner := "a",
                            collaborators := [], versions := [],
                            currentVersion := 0, lastModified := 0 })],
      documentShadows := [("d", "base")], offlineEdits := [] }
    "d" 0
    { title := "T", content := "base", owner := "a", collaborators := [],
      versions := [], currentVersion := 0, lastModified := 0 }
    "base" (by decide) (by decide) (by decide)

/-- Helper: revertToVersion on a valid index returns the addVersion result
for the target version's content. -/
theorem revertToVersion_valid (d : Document) (i : Int) (userId : String) (now : Nat)
    (h : 0 ≤ i ∧ i < (d.versions.length : Int)) (hlt : i.toNat < d.versions.length) :
    revertToVersion d i userId now
      = .ok (addVersion d (d.versions.get ⟨i.toNat, hlt⟩).content userId
          ("Reverted to version " ++ toString (i + 1)) now) := by
  unfold revertToVersion
  rw [dif_pos h]

/-- Claim C7: revert to a valid index `i` appends a new version whose content
equals `versions[i].content` with description "Reverted to version i+1",
sets the document content to that value, and refreshes the in-memory shadow;
an out-of-range index yields the invalid-version-index error with no state
returned. -/
theorem C7_revert (st : ServerState) (documentId : String) (d : Document)
    (i : Int) (userId : String) (now : Nat)
    (hdoc : getKey st.documents documentId = some d) :
    (∀ h : 0 ≤ i ∧ i < (d.versions.length : Int),
       ∃ st2, revertRoute st documentId i userId now = .ok st2
         ∧ (getKey st2.documents documentId).map Document.content
             = some (d.versions.get ⟨i.toNat, by omega⟩).content
         ∧ (getKey st2.documents documentId).map Document.versions
             = some (d.versions
                 ++ [{ content := (d.versions.get ⟨i.toNat, by omega⟩).content,
                       timestamp := now, author := userId,
                       changeDescription := "Reverted to version " ++ toString (i + 1) }])
         ∧ getKey st2.documentShadows documentId
             = some (d.versions.get ⟨i.toNat, by omega⟩).content)
    ∧ (¬ (0 ≤ i ∧ i < (d.versions.length : Int)) →
        revertRoute st documentId i userId now = .error "Invalid version index") := by
  constructor
  · intro h
    have hlt : i.toNat < d.versions.length := by omega
    have hroute : revertRoute st documentId i userId now
        = .ok { st with
                documents :=
                  setKey st.documents documentId
                    (addVersion d (d.versions.get ⟨i.toNat, hlt⟩).content userId
                      ("Reverted to version " ++ toString (i + 1)) now),
                documentShadows :=
                  setKey st.documentShadows documentId
                    (addVersion d (d.versions.get ⟨i.toNat, hlt⟩).content userId
                      ("Reverted to version " ++ toString (i + 1)) now).content } := by
      unfold revertRoute
      simp only [hdoc, revertToVersion_valid d i userId now h hlt]
    refine ⟨_, hroute, ?_, ?_, ?_⟩ <;>
      simp [getKey_setKey_self, addVersion]
  · intro h
    unfold revertRoute
    simp only [hdoc]
    unfold revertToVersion
    rw [dif_neg h]

/-- Claim C8: reverting to a valid index `i` yields content equal to
`versions[i].content`; an immediate second revert to the same `i` leaves the
content unchanged while still appending another version entry. -/
theorem C8_revert_idempotence (d : Document) (i : Int) (u1 u2 : String) (t1 t2 : Nat)
    (h : 0 ≤ i ∧ i < (d.versions.length : Int)) :
    ∃ d1 d2,
      revertToVersion d i u1 t1 = .ok d1
      ∧ d1.content = (d.versions.get ⟨i.toNat, by omega⟩).content
      ∧ revertToVersion d1 i u2 t2 = .ok d2
      ∧ d2.content = d1.content
      ∧ d1.versions.length = d.versions.length + 1
      ∧ d2.versions.length = d.versions.length + 2 := by
  have hlt : i.toNat < d.versions.length := by omega
  have h1 : 0 ≤ i ∧ i < ((addVersion d (d.versions.get ⟨i.toNat, hlt⟩).content u1
      ("Reverted to version " ++ toString (i + 1)) t1).versions.length : Int) := by
    simp [addVersion]
    omega
  have hlt1 : i.toNat < (addVersion d (d.versions.get ⟨i.toNat, hlt⟩).content u1
      ("Reverted to version " ++ toString (i + 1)) t1).versions.length := by
    simp [addVersion]
    omega
  refine ⟨_, _, revertToVersion_valid d i u1 t1 h hlt, by simp [addVersion],
    revertToVersion_valid _ i u2 t2 h1 hlt1, ?_, by simp [addVersion], by simp [addVersion]⟩
  simp only [addVersion, List.get_eq_getElem]
  exact congrArg Version.content (List.getElem_append_left hlt)

/-- Witness for C7: reverting the two-version document to index 1 yields
content "ab", an appended "Reverted to version 2" entry, and shadow "ab". -/
theorem C7_revert_witness :
    (∀ h : 0 ≤ (1 : Int) ∧ (1 : Int) < (2 : Int),
       ∃ st2,
         revertRoute
           { documents := [("d", { title := "T", content := "abX", owner := "u",
                                   collaborators := [],
                                   versions := [{ content := "a", timestamp := 0, author := "u",
                                                  changeDescription := "c0" },
                                                { content := "ab", timestamp := 1, author := "u",
                                                  changeDescription := "c1" }],
                                   currentVersion := 1, lastModified := 0 })],
             documentShadows := [("d", "abX")], offlineEdits := [] } "d" 1 "u" 9 = .ok st2
         ∧ (getKey st2.documents "d").map Document.content = some "ab"
         ∧ (getKey st2.documents "d").map Document.versions
             = some [{ content := "a", timestamp := 0, author := "u",
                       changeDescription := "c0" },
                     { content := "ab", timestamp := 1, author := "u",
                       changeDescription := "c1" },
                     { content := "ab", timestamp := 9, author := "u",
                       changeDescription := "Reverted to version 2" }]
         ∧ getKey st2.documentShadows "d" = some "ab")
    ∧ (¬ (0 ≤ (1 : Int) ∧ (1 : Int) < (2 : Int)) →
        revertRoute
          { documents := [("d", { title := "T", content := "abX", owner := "u",
                                  collaborators := [],
                                  versions := [{ content := "a", timestamp := 0, author := "u",
                                                 changeDescription := "c0" },
                                               { content := "ab", timestamp := 1, author := "u",
                                                 changeDescription := "c1" }],
                                  currentVersion := 1, lastModified := 0 })],
            documentShadows := [("d", "abX")], offlineEdits := [] } "d" 1 "u" 9
          = .error "Invalid version index") :=
  C7_revert
    { documents := [("d", { title := "T", content := "abX", owner := "u",
                            collaborators := [],
                            versions := [{ content := "a", timestamp := 0, author := "u",
                                           changeDescription := "c0" },
                                         { content := "ab", timestamp := 1, author := "u",
                                           changeDescription := "c1" }],
                            currentVersion := 1, lastModified := 0 })],
      documentShadows := [("d", "abX")], offlineEdits := [] } "d"
    { title := "T", content := "abX", owner := "u", collaborators := [],
      versions := [{ content := "a", timestamp := 0, author := "u",
                     changeDescription := "c0" },
                   { content := "ab", timestamp := 1, author := "u",
                     changeDescription := "c1" }],
      currentVersion := 1, lastModified := 0 } 1 "u" 9 (by decide)

/-- Witness for C8: double revert to index 0 of a two-version document keeps
content "a" while the version list grows to 3 and then 4 entries. -/
theorem C8_revert_idempotence_witness :
    ∃ d1 d2,
      revertToVersion
        { title := "T", content := "abX", owner := "u", collaborators := [],
          versions := [{ content := "a", timestamp := 0, author := "u",
                         changeDescription := "c0" },
                       { content := "ab", timestamp := 1, author := "u",
                         changeDescription := "c1" }],
          currentVersion := 1, lastModified := 0 } 0 "u" 5 = .ok d1
      ∧ d1.content = "a"
      ∧ revertToVersion d1 0 "v" 6 = .ok d2
      ∧ d2.content = d1.content
      ∧ d1.versions.length = 3
      ∧ d2.versions.length = 4 :=
  C8_revert_idempotence
    { title := "T", content := "abX", owner := "u", collaborators := [],
      versions := [{ content := "a", timestamp := 0, author := "u",
                     changeDescription := "c0" },
                   { content := "ab", timestamp := 1, author := "u",
                     changeDescription := "c1" }],
      currentVersion := 1, lastModified := 0 } 0 "u" "v" 5 6 (by decide)

/-- Helper: the replay comparator is transitive. -/
theorem byTimestamp_trans (a b c : OfflineEdit)
    (hab : byTimestamp a b = true) (hbc : byTimestamp b c = true) :
    byTimestamp a c = true := by
  simp only [byTimestamp, Nat.ble_eq] at *
  omega

/-- Helper: the replay comparator is total. -/
theorem byTimestamp_total (a b : OfflineEdit) :
    (byTimestamp a b || byTimestamp b a) = true := by
  simp only [byTimestamp, Nat.ble_eq, Bool.or_eq_true]
  omega

/-- Claim C5: a sync-offline-edits with a non-empty buffer replays the
bundles in ascending clientTimestamp order (the processed list is a sorted
permutation of the buffer), skipping failed bundles while the shadow
accumulates through successful applications only (replayStep); the reply
carries the number of successful applications, and when at least one
succeeded a single "Synced N offline edits" version is appended and
`document-updated` with the full final content is broadcast to the entire
room. -/
theorem C5_offline_replay (patch_apply : PatchApply) (now : Nat) (user : UserInfo)
    (st : ServerState) (documentId : String) (document : Document) (shadow : String)
    (edits : List OfflineEdit)
    (hbuf : getKey st.offlineEdits (user.id ++ "-" ++ documentId) = some edits)
    (hne : edits ≠ [])
    (hdoc : getKey st.documents documentId = some document)
    (hshadow : getKey st.documentShadows documentId = some shadow) :
    List.Pairwise (fun a b => a.timestamp ≤ b.timestamp) (edits.mergeSort byTimestamp)
    ∧ (edits.mergeSort byTimestamp).Perm edits
    ∧ (0 < ((edits.mergeSort byTimestamp).foldl (replayStep patch_apply) (shadow, 0)).2 →
        (handleSyncOfflineEdits patch_apply none none now user st documentId).2
          = [OutMsg.documentUpdatedToRoom documentId
               ((edits.mergeSort byTimestamp).foldl (replayStep patch_apply) (shadow, 0)).1
               user.id user.username,
             OutMsg.versionCreatedToRoom documentId document.versions.length
               user.id user.username now,
             OutMsg.offlineEditsSyncedToSender true
               ((edits.mergeSort byTimestamp).foldl (replayStep patch_apply) (shadow, 0)).2]
        ∧ (getKey (handleSyncOfflineEdits patch_apply none none now user st
             documentId).1.documents documentId).map Document.versions
          = some (document.versions
              ++ [{ content :=
                      ((edits.mergeSort byTimestamp).foldl (replayStep patch_apply) (shadow, 0)).1,
                    timestamp := now, author := user.id,
                    changeDescription := "Synced "
                      ++ toString ((edits.mergeSort byTimestamp).foldl
                           (replayStep patch_apply) (shadow, 0)).2
                      ++ " offline edits" }])
        ∧ (getKey (handleSyncOfflineEdits patch_apply none none now user st
             documentId).1.documents documentId).map Document.content
          = some ((edits.mergeSort byTimestamp).foldl (replayStep patch_apply) (shadow, 0)).1
        ∧ getKey (handleSyncOfflineEdits patch_apply none none now user st
            documentId).1.documentShadows documentId
          = some ((edits.mergeSort byTimestamp).foldl (replayStep patch_apply) (shadow, 0)).1)
    ∧ (((edits.mergeSort byTimestamp).foldl (replayStep patch_apply) (shadow, 0)).2 = 0 →
        handleSyncOfflineEdits patch_apply none none now user st documentId
          = ({ st with offlineEdits := delKey st.offlineEdits (user.id ++ "-" ++ documentId) },
             [OutMsg.offlineEditsSyncedToSender true 0])) := by
  have hlen : ¬ edits.length = 0 := by
    simpa [List.length_eq_zero] using hne
  refine ⟨?_, List.mergeSort_perm edits byTimestamp, ?_, ?_⟩
  · exact (List.sorted_mergeSort byTimestamp_trans byTimestamp_total edits).imp
      (fun hab => by simpa [byTimestamp, Nat.ble_eq] using hab)
  · intro hpos
    unfold handleSyncOfflineEdits
    simp only [hbuf, Option.getD_some, if_neg hlen, hdoc,
      getDocumentShadow_of_present st documentId shadow hshadow]
    rw [if_pos hpos]
    refine ⟨by simp [addVersion], ?_, ?_, ?_⟩ <;>
      simp [getKey_setKey_self, addVersion]
  · intro hzero
    unfold handleSyncOfflineEdits
    simp only [hbuf, Option.getD_some, if_neg hlen, hdoc,
      getDocumentShadow_of_present st documentId shadow hshadow]
    rw [hzero, if_neg (lt_irrefl 0)]

/-- Witness for C5: three buffered edits with timestamps 300, 100, 200 under
a patch function that always succeeds. -/
theorem C5_offline_replay_witness :
    List.Pairwise (fun a b => a.timestamp ≤ b.timestamp) (([{ patches := 1, timestamp := 300, userId := "u", username := "U" }, { patches := 2, timestamp := 100, userId := "u", username := "U" }, { patches := 3, timestamp := 200, userId := "u", username := "U" }] : List OfflineEdit).mergeSort byTimestamp)
    ∧ (([{ patches := 1, timestamp := 300, userId := "u", username := "U" }, { patches := 2, timestamp := 100, userId := "u", username := "U" }, { patches := 3, timestamp := 200, userId := "u", username := "U" }] : List OfflineEdit).mergeSort byTimestamp).Perm ([{ patches := 1, timestamp := 300, userId := "u", username := "U" }, { patches := 2, timestamp := 100, userId := "u", username := "U" }, { patches := 3, timestamp := 200, userId := "u", username := "U" }] : List OfflineEdit)
    ∧ (0 < ((([{ patches := 1, timestamp := 300, userId := "u", username := "U" }, { patches := 2, timestamp := 100, userId := "u", username := "U" }, { patches := 3, timestamp := 200, userId := "u", username := "U" }] : List OfflineEdit).mergeSort byTimestamp).foldl (replayStep (fun _ t => (t ++ "X", [true]))) ("base", 0)).2 →
        (handleSyncOfflineEdits (fun _ t => (t ++ "X", [true])) none none 9 ({ id := "u", username := "U" } : UserInfo) ({ documents := [("d", { title := "T", content := "base", owner := "u", collaborators := [], versions := [], currentVersion := 0, lastModified := 0 })], documentShadows := [("d", "base")], offlineEdits := [("u-d", [{ patches := 1, timestamp := 300, userId := "u", username := "U" }, { patches := 2, timestamp := 100, userId := "u", username := "U" }, { patches := 3, timestamp := 200, userId := "u", username := "U" }])] } : ServerState) "d").2 = [OutMsg.documentUpdatedToRoom "d" ((([{ patches := 1, timestamp := 300, userId := "u", username := "U" }, { patches := 2, timestamp := 100, userId := "u", username := "U" }, { patches := 3, timestamp := 200, userId := "u", username := "U" }] : List OfflineEdit).mergeSort byTimestamp).foldl (replayStep (fun _ t => (t ++ "X", [true]))) ("base", 0)).1 "u" "U", OutMsg.versionCreatedToRoom "d" 0 "u" "U" 9, OutMsg.offlineEditsSyncedToSender true ((([{ patches := 1, timestamp := 300, userId := "u", username := "U" }, { patches := 2, timestamp := 100, userId := "u", username := "U" }, { patches := 3, timestamp := 200, userId := "u", username := "U" }] : List OfflineEdit).mergeSort byTimestamp).foldl (replayStep (fun _ t => (t ++ "X", [true]))) ("base", 0)).2]
        ∧ (getKey (handleSyncOfflineEdits (fun _ t => (t ++ "X", [true])) none none 9 ({ id := "u", username := "U" } : UserInfo) ({ documents := [("d", { title := "T", content := "base", owner := "u", collaborators := [], versions := [], currentVersion := 0, lastModified := 0 })], documentShadows := [("d", "base")], offlineEdits := [("u-d", [{ patches := 1, timestamp := 300, userId := "u", username := "U" }, { patches := 2, timestamp := 100, userId := "u", username := "U" }, { patches := 3, timestamp := 200, userId := "u", username := "U" }])] } : ServerState) "d").1.documents "d").map Document.versions = some ([] ++ [{ content := ((([{ patches := 1, timestamp := 300, userId := "u", username := "U" }, { patches := 2, timestamp := 100, userId := "u", username := "U" }, { patches := 3, timestamp := 200, userId := "u", username := "U" }] : List OfflineEdit).mergeSort byTimestamp).foldl (replayStep (fun _ t => (t ++ "X", [true]))) ("base", 0)).1, timestamp := 9, author := "u", changeDescription := "Synced " ++ toString ((([{ patches := 1, timestamp := 300, userId := "u", username := "U" }, { patches := 2, timestamp := 100, userId := "u", username := "U" }, { patches := 3, timestamp := 200, userId := "u", username := "U" }] : List OfflineEdit).mergeSort byTimestamp).foldl (replayStep (fun _ t => (t ++ "X", [true]))) ("base", 0)).2 ++ " offline edits" }])
        ∧ (getKey (handleSyncOfflineEdits (fun _ t => (t ++ "X", [true])) none none 9 ({ id := "u", username := "U" } : UserInfo) ({ documents := [("d", { title := "T", content := "base", owner := "u", collaborators := [], versions := [], currentVersion := 0, lastModified := 0 })], documentShadows := [("d", "base")], offlineEdits := [("u-d", [{ patches := 1, timestamp := 300, userId := "u", username := "U" }, { patches := 2, timestamp := 100, userId := "u", username := "U" }, { patches := 3, timestamp := 200, userId := "u", username := "U" }])] } : ServerState) "d").1.documents "d").map Document.content = some ((([{ patches := 1, timestamp := 300, userId := "u", username := "U" }, { patches := 2, timestamp := 100, userId := "u", username := "U" }, { patches := 3, timestamp := 200, userId := "u", username := "U" }] : List OfflineEdit).mergeSort byTimestamp).foldl (replayStep (fun _ t => (t ++ "X", [true]))) ("base", 0)).1
        ∧ getKey (handleSyncOfflineEdits (fun _ t => (t ++ "X", [true])) none none 9 ({ id := "u", username := "U" } : UserInfo) ({ documents := [("d", { title := "T", content := "base", owner := "u", collaborators := [], versions := [], currentVersion := 0, lastModified := 0 })], documentShadows := [("d", "base")], offlineEdits := [("u-d", [{ patches := 1, timestamp := 300, userId := "u", username := "U" }, { patches := 2, timestamp := 100, userId := "u", username := "U" }, { patches := 3, timestamp := 200, userId := "u", username := "U" }])] } : ServerState) "d").1.documentShadows "d" = some ((([{ patches := 1, timestamp := 300, userId := "u", username := "U" }, { patches := 2, timestamp := 100, userId := "u", username := "U" }, { patches := 3, timestamp := 200, userId := "u", username := "U" }] : List OfflineEdit).mergeSort byTimestamp).foldl (replayStep (fun _ t => (t ++ "X", [true]))) ("base", 0)).1)
    ∧ (((([{ patches := 1, timestamp := 300, userId := "u", username := "U" }, { patches := 2, timestamp := 100, userId := "u", username := "U" }, { patches := 3, timestamp := 200, userId := "u", username := "U" }] : List OfflineEdit).mergeSort byTimestamp).foldl (replayStep (fun _ t => (t ++ "X", [true]))) ("base", 0)).2 = 0 →
        (handleSyncOfflineEdits (fun _ t => (t ++ "X", [true])) none none 9 ({ id := "u", username := "U" } : UserInfo) ({ documents := [("d", { title := "T", content := "base", owner := "u", collaborators := [], versions := [], currentVersion := 0, lastModified := 0 })], documentShadows := [("d", "base")], offlineEdits := [("u-d", [{ patches := 1, timestamp := 300, userId := "u", username := "U" }, { patches := 2, timestamp := 100, userId := "u", username := "U" }, { patches := 3, timestamp := 200, userId := "u", username := "U" }])] } : ServerState) "d") = ({ documents := [("d", { title := "T", content := "base", owner := "u", collaborators := [], versions := [], currentVersion := 0, lastModified := 0 })], documentShadows := [("d", "base")], offlineEdits := delKey ({ documents := [("d", { title := "T", content := "base", owner := "u", collaborators := [], versions := [], currentVersion := 0, lastModified := 0 })], documentShadows := [("d", "base")], offlineEdits := [("u-d", [{ patches := 1, timestamp := 300, userId := "u", username := "U" }, { patches := 2, timestamp := 100, userId := "u", username := "U" }, { patches := 3, timestamp := 200, userId := "u", username := "U" }])] } : ServerState).offlineEdits ("u" ++ "-" ++ "d") }, [OutMsg.offlineEditsSyncedToSender true 0])) :=
  C5_offline_replay (fun _ t => (t ++ "X", [true])) 9 ({ id := "u", username := "U" } : UserInfo) ({ documents := [("d", { title := "T", content := "base", owner := "u", collaborators := [], versions := [], currentVersion := 0, lastModified := 0 })], documentShadows := [("d", "base")], offlineEdits := [("u-d", [{ patches := 1, timestamp := 300, userId := "u", username := "U" }, { patches := 2, timestamp := 100, userId := "u", username := "U" }, { patches := 3, timestamp := 200, userId := "u", username := "U" }])] } : ServerState) "d"
    ({ title := "T", content := "base", owner := "u", collaborators := [], versions := [], currentVersion := 0, lastModified := 0 } : Document)
    "base"
    ([{ patches := 1, timestamp := 300, userId := "u", username := "U" }, { patches := 2, timestamp := 100, userId := "u", username := "U" }, { patches := 3, timestamp := 200, userId := "u", username := "U" }] : List OfflineEdit)
    (by decide) (by decide) (by decide) (by decide)

end CollabEditor
